import Mathlib

/-!
Verification of `coordinates` (src/coordinates/classes.py) against its
natural-language specification.

The embedding is shallow: a Python `dict` is an insertion-ordered
association list `List (K × V)`; `MathDict` instances are such lists;
`Coordinate` instances are a record holding the underlying dict (`_dict`)
and the instance-level order override (`_order`).  Fallible Python code
(raising `TypeError` / `KeyError` / `ValueError`) is embedded as
`Except`-valued functions whose error constructors mirror the exceptions
raised in the source.
-/

namespace PyCoords

variable {K V N : Type} [DecidableEq K]

/-- Python `d[k]` on a dict embedded as an association list: the value at
the first matching key (dicts never hold duplicate keys, so at most one
entry matches).  `none` embeds a raised `KeyError`. -/
def pyLookup : List (K × V) → K → Option V
  | [], _ => none
  | kv :: rest, k => if kv.1 = k then some kv.2 else pyLookup rest k

/-- The key list of a dict (Python `list(d)` / iteration order). -/
def dictKeys (d : List (K × V)) : List K := d.map Prod.fst

/-- Python `d[k] = v` on a dict: replace the value in place if the key is
present (keeping its position), otherwise append the new entry. -/
def dictSet (d : List (K × V)) (k : K) (v : V) : List (K × V) :=
  if (pyLookup d k).isSome then
    d.map (fun kv => if kv.1 = k then (k, v) else kv)
  else d ++ [(k, v)]

/-- Build a dict by inserting a sequence of key/value pairs left to right
(Python `dict(pairs)` and also `dict.update`): later pairs override
earlier ones. -/
def dictInsertAll (d : List (K × V)) (pairs : List (K × V)) : List (K × V) :=
  pairs.foldl (fun acc kv => dictSet acc kv.1 kv.2) d

/-- Order-independent key-set equality, the semantics of comparing two
`KeysView`s with `==` in `MathDict.__binary_op`
(`self.keys() == other.keys()`). -/
def setEq (xs ys : List K) : Bool :=
  xs.all (fun k => decide (k ∈ ys)) && ys.all (fun k => decide (k ∈ xs))

namespace MathDict

/-- Errors raised by `MathDict.__binary_op`.  `keyMismatch` carries both
operands, as the raised `KeyError` message is formatted from `self` and
`other` (`'{} and {} do not have the same keys'`). -/
inductive MathErr (K V : Type) where
  | keyMismatch (a b : List (K × V))
  | keyError

/-- The right-hand operand of `MathDict.__binary_op`: a number
(`isinstance(other, Number)`) or another keyed container. -/
inductive Operand (K V : Type) where
  | scalar (s : V)
  | container (b : List (K × V))

/-- The broadcast dict built in `__binary_op` for a scalar operand:
`{key: other for key in self.keys()}`. -/
def broadcastDict (ks : List K) (s : V) : List (K × V) :=
  ks.map (fun k => (k, s))

/-- The dict comprehension
`{key: op(val, other[key]) for key, val in self.items()}` from
`MathDict.__binary_op`: each lookup `other[key]` may raise `KeyError`
(embedded as `none`). -/
def binOpApply (op : V → V → V) : List (K × V) → List (K × V) → Option (List (K × V))
  | [], _ => some []
  | kv :: rest, other =>
    match pyLookup other kv.1 with
    | some w =>
      match binOpApply op rest other with
      | some r => some ((kv.1, op kv.2 w) :: r)
      | none => none
    | none => none

/-- `MathDict.__binary_op(self, op, other)`: broadcast a scalar over the
keys, or require set-equal key sets and combine elementwise; the result
dict is built over `self.items()` in `self`'s order.  All binary dunders
(`__add__` .. `__ipow__`) delegate here with the corresponding `op`. -/
def binaryOp (op : V → V → V) (a : List (K × V)) :
    Operand K V → Except (MathErr K V) (List (K × V))
  | .scalar s =>
    match binOpApply op a (broadcastDict (dictKeys a) s) with
    | some r => .ok r
    | none => .error .keyError
  | .container b =>
    if setEq (dictKeys a) (dictKeys b) then
      match binOpApply op a b with
      | some r => .ok r
      | none => .error .keyError
    else .error (.keyMismatch a b)

/-! The attribute table of `MathDict`: exactly the methods defined in the
class body of `MathDict` in `classes.py` (lines 17-127).  Python resolves
a reflected arithmetic operation `op(scalar, mathdict)` by first asking
the scalar type, which returns `NotImplemented` for a `MathDict` right
operand, and then looking the reflected dunder up on `type(mathdict)`;
if it is absent, the operation raises `TypeError`.  Likewise
`divmod(mathdict, x)` looks up `__divmod__`. -/

/-- Method names of `MathDict`, as an enumeration (dunder methods plus
the plain methods; `Mapping` supplies no arithmetic methods). -/
inductive Meth where
  | init | getitem | getattr | iter | len | repr | round
  | neg | pos | abs | ceil | floor | trunc
  | add | sub | mul | floordiv | truediv | mod | pow
  | iadd | isub | imul | ifloordiv | itruediv | imod | ipow
  | radd | rsub | rmul | rfloordiv | rtruediv | rmod | rpow
  | divmod | rdivmod
  | sum | prod | norm
  deriving DecidableEq

/-- The methods actually defined in the body of `class MathDict` in
`classes.py`, in source order. -/
def mathDictMethods : List Meth :=
  [.init, .getitem, .getattr, .iter, .len, .repr, .round,
   .neg, .pos, .abs, .ceil, .floor, .trunc,
   .add, .sub, .mul, .floordiv, .truediv, .mod, .pow,
   .iadd, .isub, .imul, .ifloordiv, .itruediv, .imod, .ipow,
   .sum, .prod, .norm]

/-- The reflected dunder that Python consults for `op(scalar, mathdict)`. -/
def reflectedOf : Meth → Option Meth
  | .add => some .radd
  | .sub => some .rsub
  | .mul => some .rmul
  | .floordiv => some .rfloordiv
  | .truediv => some .rtruediv
  | .mod => some .rmod
  | .pow => some .rpow
  | .divmod => some .rdivmod
  | _ => none

/-- A dispatch failure: Python raises `TypeError` when no method
implements the operation. -/
inductive DispatchErr where
  | typeError
  deriving DecidableEq

/-- Python evaluation of `op(scalar, mathdict)` for an arithmetic `op`:
the scalar returns `NotImplemented`, so the result is determined by
whether `MathDict` defines the reflected dunder.  `.ok ()` means a
reflected method would be invoked; `.error .typeError` means the call
raises `TypeError`. -/
def evalScalarOpMathDict (op : Meth) : Except DispatchErr Unit :=
  match reflectedOf op with
  | some r => if r ∈ mathDictMethods then .ok () else .error .typeError
  | none => .error .typeError

/-- Python evaluation of `divmod(mathdict, x)`: determined by whether
`MathDict` defines `__divmod__`. -/
def evalDivmodMathDict : Except DispatchErr Unit :=
  if Meth.divmod ∈ mathDictMethods then .ok () else .error .typeError

end MathDict

/-! The `Coordinate` layer.

Values flowing through `Coordinate.__init__` are arbitrary Python
objects: the positional arguments may be numbers, sequences, or dicts,
and (in a corner of the fallback parse) a whole sequence can itself
become a stored value.  `Obj K N` embeds the object shapes the claims
exercise: a number with payload type `N`, a bare key object (produced
when iterating a dict during `zip`), a sequence, and a dict.  A sequence
of key/value pairs (which `dict()` would also accept) is not
representable with keys of type `K`; no claim uses one, and `dictParse`
treats a non-empty plain sequence as the `'cannot convert'` failure it
produces for sequences of numbers. -/
inductive Obj (K N : Type) where
  | num (v : N)
  | key (k : K)
  | arr (items : List (Obj K N))
  | dict (pairs : List (K × Obj K N))

/-- The instance state of a `Coordinate`: the underlying dict `_dict`
(set by `MathDict.__init__`) and the instance-level order override
`_order` (set at the end of `Coordinate.__init__`, re-settable through
the `order` property setter). -/
structure Coordinate (K V : Type) where
  _dict : List (K × V)
  _order : Option (List K)

/-- Errors raised during `Coordinate` construction and arithmetic. -/
inductive CoordErr (K V : Type) where
  | typeErrorNotIterable
  | noOrder
  | lengthMismatch
  | noLen
  | indexError
  | validationError (name : String) (required : List K) (got : List K)
  | keyMismatch (a b : List (K × V))
  | keyError

/-- The class-level attributes a `Coordinate` subclass contributes:
`default_order` and the `_validate` hook (a no-op returning `none` on the
base class, overridden by `spaced_coordinate` subtypes). -/
structure CoordClass (K V : Type) where
  default_order : Option (List K)
  _validate : Coordinate K V → Option (CoordErr K V)

/-- The base `Coordinate` class with a given `default_order`
(settable class-wide, per the class docstring) and the no-op
`_validate`. -/
def plainCoordClass (dflt : Option (List K)) : CoordClass K V :=
  { default_order := dflt, _validate := fun _ => none }

/-- Python truthiness of an optional order value: `None` and an empty
sequence are falsy.  Used by every `x or y` chain in the source. -/
def truthyOrder : Option (List K) → Option (List K)
  | some (k :: ks) => some (k :: ks)
  | _ => none

/-- Insert into a descending-sorted list, keeping it descending. -/
def insertDesc [LinearOrder K] (k : K) : List K → List K
  | [] => [k]
  | x :: xs => if x ≤ k then k :: x :: xs else x :: insertDesc k xs

/-- Python `sorted(keys, reverse=True)`: reverse-lexicographic
(descending) sort.  Dict keys are distinct, so stability is
immaterial. -/
def sortDesc [LinearOrder K] : List K → List K
  | [] => []
  | x :: xs => insertDesc x (sortDesc xs)

namespace Coordinate

variable [LinearOrder K]

/-- The `order` property:
`self._order or self.default_order or sorted(self._dict, reverse=True)`. -/
def order (cls : CoordClass K V) (st : Coordinate K V) : List K :=
  match truthyOrder st._order with
  | some l => l
  | none =>
    match truthyOrder cls.default_order with
    | some l => l
    | none => sortDesc (dictKeys st._dict)

/-- The `order` property setter (`self._order = value`). -/
def setOrder (st : Coordinate K V) (o : Option (List K)) : Coordinate K V :=
  { st with _order := o }

/-- The effective order used inside `keys`/`values`/`items`/`to_list`:
`order or self.order` on the explicit argument. -/
def viewOrder (cls : CoordClass K V) (st : Coordinate K V)
    (o : Option (List K)) : List K :=
  match truthyOrder o with
  | some l => l
  | none => order cls st

/-- `Coordinate._to_ordered_dict(order)`:
`OrderedDict((key, self[key]) for key in order if key in self)` — a
sequence of inserts into an initially empty ordered dict, skipping keys
absent from the instance. -/
def to_ordered_dict (data : List (K × V)) (ord : List K) : List (K × V) :=
  ord.foldl
    (fun acc k =>
      match pyLookup data k with
      | some v => dictSet acc k v
      | none => acc) []

/-- `Coordinate.keys(order=None)`: the keys of the ordered dict built
from `order or self.order`. -/
def keys (cls : CoordClass K V) (st : Coordinate K V)
    (o : Option (List K)) : List K :=
  dictKeys (to_ordered_dict st._dict (viewOrder cls st o))

/-- `Coordinate.values(order=None)`: the values of the ordered dict. -/
def values (cls : CoordClass K V) (st : Coordinate K V)
    (o : Option (List K)) : List V :=
  (to_ordered_dict st._dict (viewOrder cls st o)).map Prod.snd

/-- `Coordinate.items(order=None)`: the pairs of the ordered dict. -/
def items (cls : CoordClass K V) (st : Coordinate K V)
    (o : Option (List K)) : List (K × V) :=
  to_ordered_dict st._dict (viewOrder cls st o)

/-- `Coordinate.to_list(order=None)`: `list(self.values(order))`. -/
def to_list (cls : CoordClass K V) (st : Coordinate K V)
    (o : Option (List K)) : List V :=
  values cls st o

end Coordinate

/-- The outcomes of `dict(*args, **kwargs)` that `Coordinate.__init__`
distinguishes: the `'cannot convert ...'` and `'dict expected at most
...'` messages send it into the sequence-parse fallback, while any other
`TypeError` (such as iterating a number) is re-raised. -/
inductive DictErr where
  | notIterable
  | cannotConvert
  | tooMany
  deriving DecidableEq

/-- Python `dict(*args, **kwargs)` on the argument shapes of the model:
no positional argument, a single dict, a single empty sequence, a single
non-empty plain sequence (`'cannot convert'`), a single non-iterable
object (`TypeError` without `'dict'`/`'cannot convert'` in the message),
or more than one positional argument (`'dict expected at most 1
argument'`). -/
def dictParse (args : List (Obj K N)) (kwargs : List (K × Obj K N)) :
    Except DictErr (List (K × Obj K N)) :=
  match args with
  | [] => .ok (dictInsertAll [] kwargs)
  | [a] =>
    match a with
    | .dict pairs => .ok (dictInsertAll (dictInsertAll [] pairs) kwargs)
    | .arr [] => .ok (dictInsertAll [] kwargs)
    | .arr (_ :: _) => .error .cannotConvert
    | .num _ => .error .notIterable
    | .key _ => .error .notIterable
  | _ :: _ :: _ => .error .tooMany

/-- Python `len(obj)`: `none` embeds the `TypeError` raised for objects
with no `__len__` (numbers, bare keys). -/
def pyLen : Obj K N → Option Nat
  | .num _ => none
  | .key _ => none
  | .arr items => some items.length
  | .dict pairs => some pairs.length

/-- Python iteration of an object for `zip`: a sequence yields its
items, a dict yields its keys (as bare key objects).  Only called on
objects whose `pyLen` is `some`. -/
def pyElems : Obj K N → List (Obj K N)
  | .arr items => items
  | .dict pairs => pairs.map (fun kv => Obj.key kv.1)
  | _ => []

/-- The `keys = order or self.default_order` resolution in the fallback
branch of `Coordinate.__init__` (truthiness on `order`, then the class
default taken as-is, then the `is None` test by the caller). -/
def resolveCtorKeys (dflt : Option (List K)) (order : Option (List K)) :
    Option (List K) :=
  match order with
  | some l => if l.isEmpty then dflt else some l
  | none => dflt

/-- The tail of `Coordinate.__init__` once the dict `d` is built:
`self._order = order; self._validate()`. -/
def coordFinish (cls : CoordClass K (Obj K N)) (d : List (K × Obj K N))
    (order : Option (List K)) :
    Except (CoordErr K (Obj K N)) (Coordinate K (Obj K N)) :=
  match cls._validate ⟨d, order⟩ with
  | none => .ok ⟨d, order⟩
  | some e => .error e

/-- The value-selection steps of the fallback branch of
`Coordinate.__init__`: `values = args` when the raw positional count
matches the order length, else `values = args[0]` when its `len` matches
(a `len`-less first argument raises `TypeError`), else the
`'args do not match length of order'` `TypeError`. -/
def fallbackValues (args : List (Obj K N)) (ks : List K) :
    Except (CoordErr K (Obj K N)) (List (Obj K N)) :=
  if args.length = ks.length then .ok args
  else
    match args.head? with
    | none => .error .indexError
    | some a0 =>
      match pyLen a0 with
      | none => .error .noLen
      | some n =>
        if n = ks.length then .ok (pyElems a0)
        else .error .lengthMismatch

/-- `Coordinate.__init__(*args, order=None, **kwargs)`: try
`dict(*args, **kwargs)`; on the recognised `TypeError`s fall back to
zipping values against `order or self.default_order`, the values chosen
by `fallbackValues`; finally store the override and run the validation
hook. -/
def coordInit (cls : CoordClass K (Obj K N)) (args : List (Obj K N))
    (kwargs : List (K × Obj K N)) (order : Option (List K)) :
    Except (CoordErr K (Obj K N)) (Coordinate K (Obj K N)) :=
  match dictParse args kwargs with
  | .ok d => coordFinish cls d order
  | .error de =>
    if de = .notIterable then .error .typeErrorNotIterable
    else
      match resolveCtorKeys cls.default_order order with
      | none => .error .noOrder
      | some ks =>
        match fallbackValues args ks with
        | .error e => .error e
        | .ok vals =>
          coordFinish cls (dictInsertAll (dictInsertAll [] (ks.zip vals)) kwargs) order

/-- The `_validate` installed by `spaced_coordinate`:
`if set(keys) != set(self): raise ValueError(...)`, where iterating
`self` goes through `Coordinate.__iter__` and therefore through the
order-filtered `keys()` view, and the error message is built from the
type name, the required keys and `tuple(self)`. -/
def spacedValidate [LinearOrder K] (name : String) (ks : List K)
    (dflt : Option (List K)) (st : Coordinate K V) : Option (CoordErr K V) :=
  let got := Coordinate.keys { default_order := dflt, _validate := fun _ => none } st none
  if setEq ks got then none else some (.validationError name ks got)

/-- `spaced_coordinate(name, keys, ordered=True)`: a subclass whose
`default_order` is `keys` when `ordered` and whose `_validate` is
`spacedValidate`. -/
def spaced_coordinate [LinearOrder K] (name : String) (ks : List K)
    (ordered : Bool := true) : CoordClass K V :=
  { default_order := if ordered then some ks else none,
    _validate := fun st =>
      spacedValidate name ks (if ordered then some ks else none) st }

/-- The right-hand operand of a binary operation on a `Coordinate`: a
number, or another coordinate together with its class (whose
`default_order` shapes its `keys()` view). -/
inductive CoordOperand (K N : Type) where
  | scalar (s : N)
  | container (bcls : CoordClass K (Obj K N)) (b : Coordinate K (Obj K N))

/-- `MathDict.__binary_op` as executed on a `Coordinate` receiver: the
`self.keys()` / `self.items()` calls resolve to the order-filtered view
methods, `other[key]` is a raw dict lookup, and the result dict is handed
to `type(self)(d)` — that is, to `Coordinate.__init__` with no `order`
argument. -/
def coordBinaryOp [LinearOrder K] (cls : CoordClass K (Obj K N))
    (op : Obj K N → Obj K N → Obj K N) (a : Coordinate K (Obj K N)) :
    CoordOperand K N → Except (CoordErr K (Obj K N)) (Coordinate K (Obj K N))
  | .scalar s =>
    match MathDict.binOpApply op (Coordinate.items cls a none)
        (MathDict.broadcastDict (Coordinate.keys cls a none) (Obj.num s)) with
    | some d => coordInit cls [Obj.dict d] [] none
    | none => .error .keyError
  | .container bcls b =>
    if setEq (Coordinate.keys cls a none) (Coordinate.keys bcls b none) then
      match MathDict.binOpApply op (Coordinate.items cls a none) b._dict with
      | some d => coordInit cls [Obj.dict d] [] none
      | none => .error .keyError
    else .error (.keyMismatch a._dict b._dict)


/-! Basic lemmas about the dict embedding. -/

theorem mem_dictKeys_of_pyLookup {d : List (K × V)} {k : K} {v : V}
    (h : pyLookup d k = some v) : k ∈ dictKeys d := by
  induction d with
  | nil => simp [pyLookup] at h
  | cons kv rest ih =>
    by_cases hk : kv.1 = k
    · subst hk; simp [dictKeys]
    · simp only [pyLookup, if_neg hk] at h
      simp [dictKeys] at ih ⊢
      exact Or.inr (ih h)

theorem pyLookup_isSome_of_mem {d : List (K × V)} {k : K}
    (h : k ∈ dictKeys d) : (pyLookup d k).isSome := by
  induction d with
  | nil => simp [dictKeys] at h
  | cons kv rest ih =>
    by_cases hk : kv.1 = k
    · simp [pyLookup, hk]
    · simp only [pyLookup, if_neg hk]
      apply ih
      simp only [dictKeys, List.map_cons, List.mem_cons] at h
      rcases h with h | h
      · exact absurd h.symm hk
      · exact h

theorem pyLookup_broadcast (ks : List K) (s : V) (k : K) :
    pyLookup (MathDict.broadcastDict ks s) k =
      if k ∈ ks then some s else none := by
  induction ks with
  | nil => simp [MathDict.broadcastDict, pyLookup]
  | cons k0 rest ih =>
    simp only [MathDict.broadcastDict, List.map] at ih ⊢
    by_cases hk : k0 = k
    · subst hk; simp [pyLookup]
    · simp [pyLookup, hk, ih, Ne.symm hk]

theorem setEq_mem_iff {xs ys : List K} (h : setEq xs ys = true) (k : K) :
    k ∈ xs ↔ k ∈ ys := by
  simp only [setEq, Bool.and_eq_true, List.all_eq_true, decide_eq_true_eq] at h
  exact ⟨h.1 k, h.2 k⟩

/-- The dict comprehension in `__binary_op` succeeds whenever every key of
`self` is present in `other`, producing a dict with `self`'s keys whose
value at `k` is `op self[k] other[k]`. -/
theorem binOpApply_ok (op : V → V → V) (a other : List (K × V))
    (h : ∀ kv ∈ a, (pyLookup other kv.1).isSome) :
    ∃ r, MathDict.binOpApply op a other = some r ∧ dictKeys r = dictKeys a ∧
      ∀ k v w, pyLookup a k = some v → pyLookup other k = some w →
        pyLookup r k = some (op v w) := by
  induction a with
  | nil =>
    refine ⟨[], rfl, rfl, ?_⟩
    intro k v w hv _
    simp [pyLookup] at hv
  | cons kv rest ih =>
    obtain ⟨w0, hw0⟩ := Option.isSome_iff_exists.mp (h kv (by simp))
    obtain ⟨r, hr, hkeys, hvals⟩ := ih (fun kv' hm => h kv' (by simp [hm]))
    refine ⟨(kv.1, op kv.2 w0) :: r, ?_, ?_, ?_⟩
    · simp [MathDict.binOpApply, hw0, hr]
    · simpa [dictKeys] using hkeys
    · intro k v w hav haw
      by_cases hk : kv.1 = k
      · subst hk
        simp only [pyLookup, if_pos rfl] at hav ⊢
        rw [hw0] at haw
        cases hav; cases haw
        rfl
      · simp only [pyLookup, if_neg hk] at hav ⊢
        exact hvals k v w hav haw

/-- C1.  For every container `A`: combining with a scalar on the right
yields a result with `A`'s key set whose value at each key `k` is
`op A[k] s`; combining with a container `B` whose key set equals `A`'s
yields a result with `A`'s key set whose value at each key `k` is
`op A[k] B[k]`.  All binary dunders of `MathDict` (`__add__` through
`__ipow__`) delegate to `binaryOp` with the appropriate `op`, and the
new dict is handed to `type(self)` for same-type reconstruction. -/
theorem C1_binary_ops_elementwise (op : V → V → V) (a : List (K × V)) (s : V) :
    (∃ r, MathDict.binaryOp op a (.scalar s) = .ok r ∧
      dictKeys r = dictKeys a ∧
      ∀ k v, pyLookup a k = some v → pyLookup r k = some (op v s)) ∧
    (∀ b, setEq (dictKeys a) (dictKeys b) = true →
      ∃ r, MathDict.binaryOp op a (.container b) = .ok r ∧
        dictKeys r = dictKeys a ∧
        ∀ k v w, pyLookup a k = some v → pyLookup b k = some w →
          pyLookup r k = some (op v w)) := by
  constructor
  · have hall : ∀ kv ∈ a,
        (pyLookup (MathDict.broadcastDict (dictKeys a) s) kv.1).isSome := by
      intro kv hm
      rw [pyLookup_broadcast]
      have : kv.1 ∈ dictKeys a := by
        simp only [dictKeys]
        exact List.mem_map_of_mem Prod.fst hm
      simp [this]
    obtain ⟨r, hr, hkeys, hvals⟩ :=
      binOpApply_ok op a (MathDict.broadcastDict (dictKeys a) s) hall
    refine ⟨r, ?_, hkeys, ?_⟩
    · simp [MathDict.binaryOp, hr]
    · intro k v hv
      refine hvals k v s hv ?_
      rw [pyLookup_broadcast]
      simp [mem_dictKeys_of_pyLookup hv]
  · intro b hset
    have hall : ∀ kv ∈ a, (pyLookup b kv.1).isSome := by
      intro kv hm
      refine pyLookup_isSome_of_mem ?_
      refine (setEq_mem_iff hset kv.1).mp ?_
      simp only [dictKeys]
      exact List.mem_map_of_mem Prod.fst hm
    obtain ⟨r, hr, hkeys, hvals⟩ := binOpApply_ok op a b hall
    refine ⟨r, ?_, hkeys, hvals⟩
    simp [MathDict.binaryOp, hset, hr]

/-- Witness for C1 at a concrete input: adding two 2-key containers with
set-equal (differently ordered) key sets. -/
theorem C1_binary_ops_elementwise_witness :
    ∃ r, MathDict.binaryOp (K := Char) (V := Int) (· + ·)
        [('a', 1), ('b', 2)] (.container [('b', 10), ('a', 20)]) = .ok r ∧
      dictKeys r = dictKeys [('a', (1 : Int)), ('b', 2)] ∧
      ∀ k v w, pyLookup [('a', (1 : Int)), ('b', 2)] k = some v →
        pyLookup [('b', (10 : Int)), ('a', 20)] k = some w →
        pyLookup r k = some (v + w) :=
  (C1_binary_ops_elementwise (· + ·) [('a', 1), ('b', 2)] 0).2
    [('b', 10), ('a', 20)] (by decide)

/-- C4.  A binary operation between containers whose key sets are not
set-equal raises the `KeyError` built from both operands
(`'{} and {} do not have the same keys'`), and no result dict is
produced. -/
theorem C4_key_mismatch_raises (op : V → V → V) (a b : List (K × V))
    (h : setEq (dictKeys a) (dictKeys b) = false) :
    MathDict.binaryOp op a (.container b) = .error (.keyMismatch a b) := by
  simp [MathDict.binaryOp, h]

/-- Witness for C4 at a concrete input: operands with keys `{a}` and
`{b}`. -/
theorem C4_key_mismatch_raises_witness :
    MathDict.binaryOp (K := Char) (V := Int) (· + ·)
        [('a', 1)] (.container [('b', 2)]) =
      .error (.keyMismatch [('a', 1)] [('b', 2)]) :=
  C4_key_mismatch_raises (· + ·) [('a', 1)] [('b', 2)] (by decide)

/-- C3 (code bug).  `MathDict` defines no reflected dunder at all
(`__radd__` .. `__rpow__`, `__rdivmod__` are absent from the class body),
so every scalar-on-the-left operation `op(s, A)` raises `TypeError`
instead of producing the elementwise reflected result required by the
spec and exercised by the repository tests (`test_binary_ops` with the
reversed operators and `test_rdivmod_number`). -/
theorem C3_reflected_ops_raise_typeerror :
    MathDict.evalScalarOpMathDict .add = .error .typeError ∧
    MathDict.evalScalarOpMathDict .sub = .error .typeError ∧
    MathDict.evalScalarOpMathDict .mul = .error .typeError ∧
    MathDict.evalScalarOpMathDict .floordiv = .error .typeError ∧
    MathDict.evalScalarOpMathDict .truediv = .error .typeError ∧
    MathDict.evalScalarOpMathDict .mod = .error .typeError ∧
    MathDict.evalScalarOpMathDict .pow = .error .typeError ∧
    MathDict.evalScalarOpMathDict .divmod = .error .typeError :=
  ⟨rfl, rfl, rfl, rfl, rfl, rfl, rfl, rfl⟩

/-- C9 (code bug).  `MathDict` defines no `__divmod__`, so
`divmod(A, other)` raises `TypeError` instead of returning the pair of
containers required by the spec and by the repository tests
(`test_divmod`, `test_divmod_number`). -/
theorem C9_divmod_raises_typeerror :
    MathDict.evalDivmodMathDict = .error .typeError := rfl

/-! Lemmas about the `Coordinate` layer. -/

theorem pyLookup_eq_none {d : List (K × V)} {k : K}
    (h : k ∉ dictKeys d) : pyLookup d k = none := by
  cases hp : pyLookup d k with
  | none => rfl
  | some v => exact absurd (mem_dictKeys_of_pyLookup hp) h

theorem dictSet_append {acc : List (K × V)} {k : K} {v : V}
    (h : k ∉ dictKeys acc) : dictSet acc k v = acc ++ [(k, v)] := by
  simp [dictSet, pyLookup_eq_none h]

omit [DecidableEq K] in
theorem dictKeys_append (d e : List (K × V)) :
    dictKeys (d ++ e) = dictKeys d ++ dictKeys e := by
  simp [dictKeys]

omit [DecidableEq K] in
theorem truthyOrder_some_ne {l : List K} (h : l ≠ []) :
    truthyOrder (some l) = some l := by
  cases l with
  | nil => exact absurd rfl h
  | cons k ks => rfl

omit [DecidableEq K] in
theorem truthyOrder_none : truthyOrder (none : Option (List K)) = none := rfl

omit [DecidableEq K] in
theorem truthyOrder_nil : truthyOrder (some ([] : List K)) = none := rfl

omit [DecidableEq K] in
theorem truthyOrder_ne_nil {o : Option (List K)} {l : List K}
    (h : truthyOrder o = some l) : l ≠ [] := by
  match o, h with
  | some (k :: ks), h =>
    cases h
    simp

omit [DecidableEq K] in
theorem insertDesc_ne_nil [LinearOrder K] (k : K) (l : List K) :
    insertDesc k l ≠ [] := by
  cases l with
  | nil => simp [insertDesc]
  | cons x xs =>
    simp only [insertDesc]
    split <;> simp

omit [DecidableEq K] in
theorem sortDesc_ne_nil [LinearOrder K] {l : List K} (h : l ≠ []) :
    sortDesc l ≠ [] := by
  cases l with
  | nil => exact absurd rfl h
  | cons x xs => exact insertDesc_ne_nil x (sortDesc xs)

/-- Unrolling `_to_ordered_dict`: with a duplicate-free order, folding
the inserts over any accumulator whose keys avoid the order appends
exactly the present keys, each with its raw dict value. -/
theorem to_ordered_dict_aux (data : List (K × V)) :
    ∀ (ord : List K) (acc : List (K × V)), ord.Nodup →
      (∀ k ∈ dictKeys acc, k ∉ ord) →
      ord.foldl
          (fun acc k =>
            match pyLookup data k with
            | some v => dictSet acc k v
            | none => acc) acc =
        acc ++ ord.filterMap (fun k => (pyLookup data k).map (fun v => (k, v)))
  | [], acc, _, _ => by simp
  | k :: rest, acc, hnd, hdisj => by
    have hk_rest : k ∉ rest := (List.nodup_cons.mp hnd).1
    have hnd' : rest.Nodup := (List.nodup_cons.mp hnd).2
    cases hp : pyLookup data k with
    | none =>
      simp only [List.foldl_cons, hp]
      rw [to_ordered_dict_aux data rest acc hnd'
        (fun k' hk' hmem => hdisj k' hk' (by simp [hmem]))]
      simp [hp]
    | some v =>
      simp only [List.foldl_cons, hp]
      have hknotacc : k ∉ dictKeys acc := fun hmem => hdisj k hmem (by simp)
      rw [dictSet_append hknotacc]
      rw [to_ordered_dict_aux data rest (acc ++ [(k, v)]) hnd' ?_]
      · simp [hp]
      · intro k' hk'
        rw [dictKeys_append] at hk'
        simp only [dictKeys, List.map_cons, List.map_nil, List.mem_append,
          List.mem_singleton] at hk'
        rcases hk' with hk' | hk'
        · exact fun hmem => hdisj k' hk' (by simp [hmem])
        · subst hk'; exact hk_rest

theorem to_ordered_dict_eq (data : List (K × V)) (ord : List K)
    (h : ord.Nodup) :
    Coordinate.to_ordered_dict data ord =
      ord.filterMap (fun k => (pyLookup data k).map (fun v => (k, v))) := by
  unfold Coordinate.to_ordered_dict
  simpa using to_ordered_dict_aux data ord [] h (by simp [dictKeys])

theorem dictKeys_filterMap_lookup (data : List (K × V)) (ord : List K) :
    dictKeys (ord.filterMap (fun k => (pyLookup data k).map (fun v => (k, v)))) =
      ord.filter (fun k => (pyLookup data k).isSome) := by
  induction ord with
  | nil => simp [dictKeys]
  | cons k rest ih =>
    cases hp : pyLookup data k with
    | none => simp [hp, ih, List.filter_cons]
    | some v =>
      simp only [List.filterMap_cons, hp, Option.map_some', List.filter_cons]
      simp only [dictKeys, List.map_cons] at ih ⊢
      simp [hp, ih]

theorem map_snd_filterMap_lookup (data : List (K × V)) (ord : List K) :
    (ord.filterMap (fun k => (pyLookup data k).map (fun v => (k, v)))).map Prod.snd =
      ord.filterMap (fun k => pyLookup data k) := by
  induction ord with
  | nil => simp
  | cons k rest ih =>
    cases hp : pyLookup data k with
    | none => simp [hp, ih]
    | some v => simp [hp, ih]

omit [DecidableEq K] in
theorem coordFinish_ok_order {cls : CoordClass K (Obj K N)}
    {d : List (K × Obj K N)} {o : Option (List K)}
    {st : Coordinate K (Obj K N)}
    (h : coordFinish cls d o = .ok st) : st._order = o := by
  unfold coordFinish at h
  split at h
  · cases h; rfl
  · cases h

theorem coordInit_ok_order {cls : CoordClass K (Obj K N)}
    {args : List (Obj K N)} {kwargs : List (K × Obj K N)}
    {o : Option (List K)} {st : Coordinate K (Obj K N)}
    (h : coordInit cls args kwargs o = .ok st) : st._order = o := by
  unfold coordInit at h
  repeat' split at h
  all_goals first
    | cases h
    | exact coordFinish_ok_order h

/-- C2 (code bug).  Every binary arithmetic operation on a `Coordinate`
rebuilds the result through `type(self)(d)` — that is, through
`Coordinate.__init__` with no `order` argument — so the result's
instance-level `_order` is always `None`, never the left operand's
override.  This contradicts the spec and the repository test
`test_binary_ops_preserve_order`, which asserts
`result._order == obj._order` for `obj = Coordinate(keys_vals,
order='bac')`. -/
theorem C2_arith_result_order_is_none [LinearOrder K]
    (cls : CoordClass K (Obj K N)) (op : Obj K N → Obj K N → Obj K N)
    (a : Coordinate K (Obj K N)) (other : CoordOperand K N)
    (r : Coordinate K (Obj K N))
    (h : coordBinaryOp cls op a other = .ok r) : r._order = none := by
  unfold coordBinaryOp at h
  repeat' split at h
  all_goals first
    | cases h
    | exact coordInit_ok_order h

/-- Witness for C2: `Coordinate({'a':1,'b':2}, order='ba') + scalar` in
the model (with a concrete `op`); the result's `_order` is `None`
although the left operand's override was `['b','a']`. -/
theorem C2_arith_result_order_is_none_witness :
    coordBinaryOp (plainCoordClass none : CoordClass Char (Obj Char Int))
        (fun x _ => x) ⟨[('a', .num 1), ('b', .num 2)], some ['b', 'a']⟩
        (.scalar 5) =
      .ok ⟨[('b', .num 2), ('a', .num 1)], none⟩ ∧
    (⟨[('b', .num 2), ('a', .num 1)], none⟩ :
        Coordinate Char (Obj Char Int))._order = none :=
  ⟨rfl,
    C2_arith_result_order_is_none (plainCoordClass none) (fun x _ => x)
      ⟨[('a', .num 1), ('b', .num 2)], some ['b', 'a']⟩ (.scalar 5)
      ⟨[('b', .num 2), ('a', .num 1)], none⟩ rfl⟩

/-- C5 (code bug).  In the model, `_validate` is invoked exactly once, at
the end of every successful construction (`coordInit` ends in
`coordFinish`, which runs the hook once), including for instances built
by arithmetic (`coordBinaryOp` reconstructs through `coordInit`).  But
the exact-key-set guarantee of `spaced_coordinate` subtypes fails: the
validator compares the required keys against `set(self)`, which iterates
the order-filtered `keys()` view, so with `ordered=True` a key set that
strictly contains the required keys passes validation (the extra keys
are invisible to the view).  First conjunct: `CoordinateCAB` (required
keys `cab`) accepts keys `a,b,c,d`.  Second: the exact key set is
accepted.  Third: wrong keys `{d}` are rejected, though the reported
actual keys are the filtered view `()`, not `('d',)`. -/
theorem C5_spaced_validation_superset_accepted :
    coordInit (spaced_coordinate "CoordinateCAB" ['c', 'a', 'b'] :
        CoordClass Char (Obj Char Int))
      [] [('a', .num 1), ('b', .num 2), ('c', .num 3), ('d', .num 4)] none =
      .ok ⟨[('a', .num 1), ('b', .num 2), ('c', .num 3), ('d', .num 4)],
        none⟩ ∧
    coordInit (spaced_coordinate "CoordinateCAB" ['c', 'a', 'b'] :
        CoordClass Char (Obj Char Int))
      [] [('c', .num 1), ('a', .num 2), ('b', .num 3)] none =
      .ok ⟨[('c', .num 1), ('a', .num 2), ('b', .num 3)], none⟩ ∧
    coordInit (spaced_coordinate "CoordinateCAB" ['c', 'a', 'b'] :
        CoordClass Char (Obj Char Int))
      [] [('d', .num 5)] none =
      .error (.validationError "CoordinateCAB" ['c', 'a', 'b'] []) :=
  ⟨rfl, rfl, rfl⟩

omit [DecidableEq K] in
/-- C6.  The `order` property resolves instance override, then class
default, then reverse-lexicographic keys ("set" being Python truthiness,
pinned separately by C10), and is recomputed from the current state:
after assigning through the `order` setter the property reflects the new
override. -/
theorem C6_order_resolution (cls : CoordClass K V) [LinearOrder K]
    (st : Coordinate K V) :
    (∀ l, st._order = some l → l ≠ [] → Coordinate.order cls st = l) ∧
    (∀ m, (st._order = none ∨ st._order = some []) →
      cls.default_order = some m → m ≠ [] → Coordinate.order cls st = m) ∧
    ((st._order = none ∨ st._order = some []) →
      (cls.default_order = none ∨ cls.default_order = some []) →
      Coordinate.order cls st = sortDesc (dictKeys st._dict)) ∧
    (∀ l, l ≠ [] →
      Coordinate.order cls (Coordinate.setOrder st (some l)) = l) := by
  refine ⟨?_, ?_, ?_, ?_⟩
  · intro l hl hne
    simp [Coordinate.order, hl, truthyOrder_some_ne hne]
  · intro m ho hd hne
    rcases ho with ho | ho <;>
      simp [Coordinate.order, ho, hd, truthyOrder_none, truthyOrder_nil,
        truthyOrder_some_ne hne]
  · intro ho hd
    rcases ho with ho | ho <;> rcases hd with hd | hd <;>
      simp [Coordinate.order, ho, hd, truthyOrder_none, truthyOrder_nil]
  · intro l hne
    simp [Coordinate.order, Coordinate.setOrder, truthyOrder_some_ne hne]

/-- Witness for C6: one concrete case of each tier, plus the setter. -/
theorem C6_order_resolution_witness :
    Coordinate.order (plainCoordClass (some ['x']))
        (⟨[('a', 1), ('b', 2)], some ['b', 'a']⟩ : Coordinate Char Int) =
      ['b', 'a'] ∧
    Coordinate.order (plainCoordClass (some ['x']))
        (⟨[('a', 1), ('b', 2)], none⟩ : Coordinate Char Int) = ['x'] ∧
    Coordinate.order (plainCoordClass none)
        (⟨[('a', 1), ('b', 2)], none⟩ : Coordinate Char Int) =
      sortDesc (dictKeys [('a', (1 : Int)), ('b', 2)]) ∧
    Coordinate.order (plainCoordClass (some ['x']))
        (Coordinate.setOrder
          (⟨[('a', 1), ('b', 2)], some ['b', 'a']⟩ : Coordinate Char Int)
          (some ['a', 'b'])) = ['a', 'b'] :=
  ⟨(C6_order_resolution _ _).1 ['b', 'a'] rfl (by decide),
   (C6_order_resolution _ _).2.1 ['x'] (Or.inl rfl) rfl (by decide),
   (C6_order_resolution _ _).2.2.1 (Or.inl rfl) (Or.inl rfl),
   (C6_order_resolution _ _).2.2.2 ['a', 'b'] (by decide)⟩

/-- C10.  Order resolution tests emptiness, not presence: an empty
instance override resolves exactly as an absent one, an empty class
default falls through to the reverse-lexicographic tier, an explicitly
empty order passed to `keys`/`values`/`items`/`to_list` falls back to
the resolved `order` property, and the resolved order of a non-empty
coordinate is never empty. -/
theorem C10_empty_order_falls_through (cls : CoordClass K V) [LinearOrder K]
    (d : List (K × V)) (st : Coordinate K V) :
    (Coordinate.order cls (⟨d, some []⟩ : Coordinate K V) =
      Coordinate.order cls (⟨d, none⟩ : Coordinate K V)) ∧
    (Coordinate.order (plainCoordClass (some []))
        (⟨d, none⟩ : Coordinate K V) = sortDesc (dictKeys d)) ∧
    (Coordinate.keys cls st (some []) = Coordinate.keys cls st none) ∧
    (Coordinate.values cls st (some []) = Coordinate.values cls st none) ∧
    (Coordinate.items cls st (some []) = Coordinate.items cls st none) ∧
    (Coordinate.to_list cls st (some []) = Coordinate.to_list cls st none) ∧
    (st._dict ≠ [] → Coordinate.order cls st ≠ []) := by
  refine ⟨rfl, rfl, rfl, rfl, rfl, rfl, ?_⟩
  intro hd
  unfold Coordinate.order
  cases h1 : truthyOrder st._order with
  | some l => exact truthyOrder_ne_nil h1
  | none =>
    cases h2 : truthyOrder cls.default_order with
    | some l => exact truthyOrder_ne_nil h2
    | none =>
      apply sortDesc_ne_nil
      simp [dictKeys]
      exact hd

/-- Reduction of `coordInit` in the fallback branch when value selection
succeeds. -/
theorem coordInit_fallback_ok {cls : CoordClass K (Obj K N)}
    {args : List (Obj K N)} {kwargs : List (K × Obj K N)}
    {order : Option (List K)} {de : DictErr} {ks : List K}
    {vals : List (Obj K N)}
    (hdp : dictParse args kwargs = .error de) (hde : de ≠ .notIterable)
    (hks : resolveCtorKeys cls.default_order order = some ks)
    (hfv : fallbackValues args ks = .ok vals) :
    coordInit cls args kwargs order =
      coordFinish cls (dictInsertAll (dictInsertAll [] (ks.zip vals)) kwargs)
        order := by
  unfold coordInit
  rw [hdp]
  dsimp only
  rw [if_neg hde, hks]
  dsimp only
  rw [hfv]

/-- Reduction of `coordInit` in the fallback branch when value selection
fails. -/
theorem coordInit_fallback_err {cls : CoordClass K (Obj K N)}
    {args : List (Obj K N)} {kwargs : List (K × Obj K N)}
    {order : Option (List K)} {de : DictErr} {ks : List K}
    {e : CoordErr K (Obj K N)}
    (hdp : dictParse args kwargs = .error de) (hde : de ≠ .notIterable)
    (hks : resolveCtorKeys cls.default_order order = some ks)
    (hfv : fallbackValues args ks = .error e) :
    coordInit cls args kwargs order = .error e := by
  unfold coordInit
  rw [hdp]
  dsimp only
  rw [if_neg hde, hks]
  dsimp only
  rw [hfv]

/-- Reduction of `coordInit` in the fallback branch when no order is
resolvable. -/
theorem coordInit_fallback_noOrder {cls : CoordClass K (Obj K N)}
    {args : List (Obj K N)} {kwargs : List (K × Obj K N)}
    {order : Option (List K)} {de : DictErr}
    (hdp : dictParse args kwargs = .error de) (hde : de ≠ .notIterable)
    (hks : resolveCtorKeys cls.default_order order = none) :
    coordInit cls args kwargs order = .error .noOrder := by
  unfold coordInit
  rw [hdp]
  dsimp only
  rw [if_neg hde, hks]

/-- Counterexample to C7 as stated.  `Coordinate([5], order='a')` does
not zip the sequence's values against the order: because the number of
raw positional arguments (1) equals the order length, the fallback takes
`values = args`, so the key `a` is mapped to the whole list `[5]`, not
to `5`. -/
theorem C7_seq_zip_counterexample :
    coordInit (plainCoordClass none : CoordClass Char (Obj Char Int))
        [Obj.arr [Obj.num 5]] [] (some ['a']) =
      .ok ⟨[('a', Obj.arr [Obj.num 5])], some ['a']⟩ ∧
    Obj.arr [Obj.num 5] ≠ (Obj.num 5 : Obj Char Int) :=
  ⟨rfl, by simp⟩

/-- C7, amended.  Construction from a single sequence of numbers with a
resolvable order zips the values against that order — and equals the
mapping-style construction from the same pairs — provided the order
length is not 1 (when it is 1, the raw positional-argument count matches
first and the whole sequence becomes the single value, as the
counterexample shows); a sequence whose length does not match the order
fails with the length-mismatch error, and with no resolvable order the
construction fails with the no-order error. -/
theorem C7_sequence_construction_amended (dflt ordArg : Option (List K))
    (vs : List N) (hvs : vs ≠ []) :
    (resolveCtorKeys dflt ordArg = none →
      coordInit (plainCoordClass dflt) [Obj.arr (vs.map Obj.num)] [] ordArg =
        .error .noOrder) ∧
    (∀ ks, resolveCtorKeys dflt ordArg = some ks → ks.length ≠ 1 →
      vs.length = ks.length →
      coordInit (plainCoordClass dflt) [Obj.arr (vs.map Obj.num)] [] ordArg =
        .ok ⟨dictInsertAll [] (ks.zip (vs.map Obj.num)), ordArg⟩ ∧
      coordInit (plainCoordClass dflt) [] (ks.zip (vs.map Obj.num)) none =
        .ok ⟨dictInsertAll [] (ks.zip (vs.map Obj.num)), none⟩) ∧
    (∀ ks, resolveCtorKeys dflt ordArg = some ks → ks.length ≠ 1 →
      vs.length ≠ ks.length →
      coordInit (plainCoordClass dflt) [Obj.arr (vs.map Obj.num)] [] ordArg =
        .error .lengthMismatch) := by
  obtain ⟨v, vt, rfl⟩ := List.exists_cons_of_ne_nil hvs
  have hdp :
      dictParse [Obj.arr ((v :: vt).map Obj.num)]
        ([] : List (K × Obj K N)) = .error .cannotConvert := rfl
  have hde : DictErr.cannotConvert ≠ DictErr.notIterable := by decide
  refine ⟨?_, ?_, ?_⟩
  · intro hks
    exact coordInit_fallback_noOrder hdp hde hks
  · intro ks hks h1 hlen
    have hfv :
        fallbackValues [Obj.arr ((v :: vt).map Obj.num)] ks =
          .ok ((v :: vt).map Obj.num) := by
      unfold fallbackValues
      rw [if_neg (by simpa using fun h => h1 h.symm)]
      simp only [List.head?_cons, pyLen, List.length_map, pyElems]
      rw [if_pos hlen]
    refine ⟨?_, rfl⟩
    rw [coordInit_fallback_ok hdp hde hks hfv]
    rfl
  · intro ks hks h1 hlen
    have hfv :
        fallbackValues [Obj.arr ((v :: vt).map Obj.num)] ks =
          .error .lengthMismatch := by
      unfold fallbackValues
      rw [if_neg (by simpa using fun h => h1 h.symm)]
      simp only [List.head?_cons, pyLen, List.length_map, pyElems]
      rw [if_neg hlen]
    exact coordInit_fallback_err hdp hde hks hfv

/-- Witness for C7 (amended): `Coordinate([1,2,3], order='abc')` zips
and equals the mapping-style construction, and `Coordinate([1,2],
order='abc')` fails with the length-mismatch error. -/
theorem C7_sequence_construction_amended_witness :
    (coordInit (plainCoordClass none : CoordClass Char (Obj Char Int))
        [Obj.arr [Obj.num 1, Obj.num 2, Obj.num 3]] [] (some ['a', 'b', 'c']) =
      .ok ⟨dictInsertAll []
          (['a', 'b', 'c'].zip ([1, 2, 3].map Obj.num)), some ['a', 'b', 'c']⟩ ∧
     coordInit (plainCoordClass none : CoordClass Char (Obj Char Int))
        [] (['a', 'b', 'c'].zip ([1, 2, 3].map Obj.num)) none =
      .ok ⟨dictInsertAll []
          (['a', 'b', 'c'].zip ([1, 2, 3].map Obj.num)), none⟩) ∧
    coordInit (plainCoordClass none : CoordClass Char (Obj Char Int))
        [Obj.arr [Obj.num 1, Obj.num 2]] [] (some ['a', 'b', 'c']) =
      .error .lengthMismatch :=
  ⟨(C7_sequence_construction_amended none (some ['a', 'b', 'c'])
      [1, 2, 3] (by decide)).2.1 ['a', 'b', 'c'] rfl (by decide) rfl,
   (C7_sequence_construction_amended none (some ['a', 'b', 'c'])
      [1, 2] (by decide)).2.2 ['a', 'b', 'c'] rfl (by decide) (by decide)⟩

/-- C8.  The ordered views `keys(order)`, `values(order)`,
`items(order)` with an explicit (non-empty, duplicate-free) order yield
exactly the order entries present on the instance, in the given order,
silently skipping absent entries — a superset order is valid; with no
explicit order they fall back to the resolved `order` property. -/
theorem C8_ordered_views_filter (cls : CoordClass K V) [LinearOrder K]
    (st : Coordinate K V) (ord : List K) (hne : ord ≠ []) (hnd : ord.Nodup) :
    Coordinate.keys cls st (some ord) =
      ord.filter (fun k => (pyLookup st._dict k).isSome) ∧
    Coordinate.values cls st (some ord) =
      ord.filterMap (fun k => pyLookup st._dict k) ∧
    Coordinate.items cls st (some ord) =
      ord.filterMap (fun k => (pyLookup st._dict k).map (fun v => (k, v))) ∧
    Coordinate.viewOrder cls st none = Coordinate.order cls st := by
  have hv : Coordinate.viewOrder cls st (some ord) = ord := by
    simp [Coordinate.viewOrder, truthyOrder_some_ne hne]
  refine ⟨?_, ?_, ?_, rfl⟩
  · unfold Coordinate.keys
    rw [hv, to_ordered_dict_eq st._dict ord hnd, dictKeys_filterMap_lookup]
  · unfold Coordinate.values
    rw [hv, to_ordered_dict_eq st._dict ord hnd, map_snd_filterMap_lookup]
  · unfold Coordinate.items
    rw [hv, to_ordered_dict_eq st._dict ord hnd]

/-- Witness for C8: a superset order `cba` over an instance holding only
keys `a` and `b`. -/
theorem C8_ordered_views_filter_witness :
    Coordinate.keys (plainCoordClass none)
        (⟨[('a', 1), ('b', 2)], none⟩ : Coordinate Char Int)
        (some ['c', 'b', 'a']) =
      ['c', 'b', 'a'].filter
        (fun k => (pyLookup [('a', (1 : Int)), ('b', 2)] k).isSome) ∧
    Coordinate.values (plainCoordClass none)
        (⟨[('a', 1), ('b', 2)], none⟩ : Coordinate Char Int)
        (some ['c', 'b', 'a']) =
      ['c', 'b', 'a'].filterMap
        (fun k => pyLookup [('a', (1 : Int)), ('b', 2)] k) ∧
    Coordinate.items (plainCoordClass none)
        (⟨[('a', 1), ('b', 2)], none⟩ : Coordinate Char Int)
        (some ['c', 'b', 'a']) =
      ['c', 'b', 'a'].filterMap
        (fun k => (pyLookup [('a', (1 : Int)), ('b', 2)] k).map
          (fun v => (k, v))) ∧
    Coordinate.viewOrder (plainCoordClass none)
        (⟨[('a', 1), ('b', 2)], none⟩ : Coordinate Char Int) none =
      Coordinate.order (plainCoordClass none)
        (⟨[('a', 1), ('b', 2)], none⟩ : Coordinate Char Int) :=
  C8_ordered_views_filter (plainCoordClass none)
    (⟨[('a', 1), ('b', 2)], none⟩ : Coordinate Char Int)
    ['c', 'b', 'a'] (by decide) (by decide)

/-- Witness for C10: the non-empty coordinate clause at a concrete
input. -/
theorem C10_empty_order_falls_through_witness :
    Coordinate.order (plainCoordClass none)
        (⟨[('a', 1), ('b', 2)], some []⟩ : Coordinate Char Int) ≠ [] :=
  (C10_empty_order_falls_through (plainCoordClass none)
    [('a', (1 : Int)), ('b', 2)]
    (⟨[('a', 1), ('b', 2)], some []⟩ : Coordinate Char Int)).2.2.2.2.2.2
    (by decide)

end PyCoords
